import Mathlib

/-!
Verification of the Telegram human-in-the-loop (HITL) approval backend.

This file gives a shallow embedding of the repository's core: the approval
ledger backed by a TTL key-value store (src/agents/state_manager.py,
src/utils/redis_client.py), the background task functions
(src/tasks/telegram_tasks.py), the webhook route and its inline callback
handler (src/routes/telegram.py), and the Telegram payload helpers
(src/utils/telegram.py).

Modelling conventions:
* Python exceptions are values of PyErr; a function that can raise returns
  Except PyErr or records the raised error in an outcome structure.
* The engine (openai-agents Runner.run) and the Telegram transport are
  external collaborators; each task takes an oracle describing the outcome
  of its single engine invocation, and outward-visible actions are recorded
  as a trace of Effect values.
* The engine's serialized run-state blob is opaque to the core (the spec:
  "treated as a black box ... never introspected, only round-tripped"), so
  the model identifies the blob with the RunState it encodes and the
  library's lossless codec RunState.to_string / RunState.from_string is the
  identity on that representation.
* json.dumps / json.loads are external library functions: a stored value is
  either structurally valid JSON (StoredVal.parsed, on which json.loads
  succeeds, relying on the library round-trip guarantee) or a raw string
  that is not valid JSON (StoredVal.unparseable, on which json.loads raises
  JSONDecodeError).
* Time is measured in milliseconds (the approval id uses a millisecond
  timestamp); Redis SET with ex seconds stores an absolute expiry of
  now + ex * 1000.
-/

set_option maxRecDepth 8000

namespace TgBot

/-- Python exception kinds that can arise in the modelled code paths. -/
inductive PyErr where
  | valueError (msg : String)
  | keyError (key : String)
  | indexError
  | typeError (msg : String)
  | guardrailTriggered
  | otherError (msg : String)
  | httpException (statusCode : Nat) (detail : String)
deriving DecidableEq, Repr

/-- Python str(e) for the modelled exceptions, as used in user-visible
f-strings; str(KeyError(k)) is the repr of the key, str(IndexError from
list indexing) is the fixed CPython message. -/
def PyErr.str : PyErr → String
  | .valueError msg => msg
  | .keyError key => "\x27" ++ key ++ "\x27"
  | .indexError => "list index out of range"
  | .typeError msg => msg
  | .guardrailTriggered => "Guardrail tripwire triggered"
  | .otherError msg => msg
  | .httpException _ detail => detail

/-- Discriminates the except ValueError clause: true exactly for ValueError
instances. -/
def PyErr.isValueError : PyErr → Bool
  | .valueError _ => true
  | _ => false

/-- One pending tool call reported by the engine: its tool name and its
serialized argument payload (both may be absent). -/
structure Interruption where
  name : Option String
  arguments : Option String
deriving DecidableEq, Repr

/-- Engine-defined paused run state. The core only observes its
interruption list (state.get_interruptions()) and round-trips it through
the ledger, so the model carries exactly that. -/
structure RunState where
  interruptions : List Interruption
deriving DecidableEq, Repr

/-- state.to_string(): the engine library's lossless serialization of a
paused run; modelled as the identity on the opaque representation. -/
def RunState.to_string (s : RunState) : RunState := s

/-- RunState.from_string(initial_agent, state_string): the engine library's
deserialization, inverse of to_string; modelled as the identity (the
initial_agent argument selects the agent graph and does not affect the
recovered state). -/
def RunState.from_string (s : RunState) : RunState := s

/-- state.get_interruptions(). -/
def RunState.get_interruptions (s : RunState) : List Interruption :=
  s.interruptions

/-- Structural JSON values, as produced by json.loads on a valid document.
Json.blob is a JSON string literal whose content is an engine-serialized
run state; it is kept structurally distinct because the model identifies
the opaque blob with the state it encodes. -/
inductive Json where
  | str (s : String)
  | num (n : Int)
  | obj (fields : List (String × Json))
  | blob (st : RunState)

/-- Python data[key] on a loaded JSON value: KeyError when the key is
missing from an object, TypeError when the value is not an object. -/
def jsonIndex (j : Json) (key : String) : Except PyErr Json :=
  match j with
  | .obj fields =>
    match fields.find? (fun f => f.1 == key) with
    | some f => .ok f.2
    | none => .error (.keyError key)
  | .str _ => .error (.typeError "string indices must be integers")
  | .blob _ => .error (.typeError "string indices must be integers")
  | .num _ => .error (.typeError "\x27int\x27 object is not subscriptable")

/-- A string stored in the key-value store, classified by whether
json.loads succeeds on it. -/
inductive StoredVal where
  | parsed (j : Json)
  | unparseable (raw : String)

/-- Python truthiness of the fetched string (the `if not data_str` check):
only the empty string is falsy; json.dumps output is never empty, so a
parsed value is always truthy. -/
def StoredVal.falsy : StoredVal → Bool
  | .unparseable raw => raw == ""
  | .parsed _ => false

/-- One live Redis entry: the stored string plus its absolute expiry time
in milliseconds. -/
structure StoreEntry where
  value : StoredVal
  expiresAt : Nat

/-- The connected Redis store, as an association list keyed by string.
The model assumes a connected, reliable client (the claims under
verification all presuppose a reachable store): operations do not raise
connection errors. -/
abbrev Store := List (String × StoreEntry)

/-- RedisClient.set(key, value, ex): overwrites any previous entry for the
key and arms a TTL of ex seconds from now. -/
def redisSet (store : Store) (key : String) (value : StoredVal)
    (ex : Nat) (now : Nat) : Store :=
  (key, ⟨value, now + ex * 1000⟩) :: store.filter (fun e => e.1 != key)

/-- RedisClient.get(key): the stored string, or None when the key is absent
or its TTL has elapsed. -/
def redisGet (store : Store) (key : String) (now : Nat) : Option StoredVal :=
  match store.find? (fun e => e.1 == key) with
  | some e => if now < e.2.expiresAt then some e.2.value else none
  | none => none

/-- RedisClient.delete(key): removes the key and reports whether a live
(unexpired) key was actually removed. -/
def redisDelete (store : Store) (key : String) (now : Nat) : Store × Bool :=
  (store.filter (fun e => e.1 != key),
   match store.find? (fun e => e.1 == key) with
   | some e => decide (now < e.2.expiresAt)
   | none => false)

/-- TTL for approval state in Redis (1 hour), in seconds. -/
def APPROVAL_TTL : Nat := 3600

/-- save_pending_approval(chat_id, state): generates the approval id
"hitl:chat_id:timestamp" from the current millisecond timestamp, stores
the json.dumps of the state_data dict under it with the fixed TTL, and
returns the id together with the updated store. The reliable-store model
makes the write always succeed. -/
def save_pending_approval (chat_id : Int) (state : RunState)
    (now : Nat) (store : Store) : String × Store :=
  let timestamp := now
  let approval_id := "hitl:" ++ toString chat_id ++ ":" ++ toString timestamp
  let state_data : StoredVal := .parsed (.obj
    [("state", .blob state.to_string),
     ("chat_id", .num chat_id),
     ("timestamp", .num (Int.ofNat timestamp))])
  (approval_id, redisSet store approval_id state_data APPROVAL_TTL now)

/-- get_pending_approval(approval_id): fetches the stored string; an absent,
expired or falsy result raises ValueError; a string json.loads rejects
raises JSONDecodeError, converted to ValueError by the dedicated except
clause; any other exception (KeyError from data["state"], TypeError from
indexing a non-object, a from_string failure) is re-raised unchanged by
the final except clause. -/
def get_pending_approval (approval_id : String) (now : Nat)
    (store : Store) : Except PyErr RunState :=
  match redisGet store approval_id now with
  | none =>
    .error (.valueError ("Approval state not found or expired: " ++ approval_id))
  | some data_str =>
    if data_str.falsy then
      .error (.valueError ("Approval state not found or expired: " ++ approval_id))
    else
      match data_str with
      | .unparseable _ =>
        .error (.valueError ("Invalid approval state data: " ++ approval_id))
      | .parsed data =>
        match jsonIndex data "state" with
        | .error e => .error e
        | .ok (.blob st) => .ok (RunState.from_string st)
        | .ok _ => .error (.otherError "RunState.from_string: invalid state string")

/-- delete_pending_approval(approval_id): best-effort delete; never raises,
returns whether a live key was removed. -/
def delete_pending_approval (approval_id : String) (now : Nat)
    (store : Store) : Store × Bool :=
  redisDelete store approval_id now

/-- Telegram user object (the "from" field of a message or callback).
The id is required: a user object without an id would fail pydantic
validation in UserInfo, which no claim exercises. Optional fields mirror
the dict.get accesses in extract_user_info_from_update. -/
structure TUser where
  id : Int
  first_name : Option String
  last_name : Option String
  username : Option String
  is_bot : Option Bool
  language_code : Option String
deriving DecidableEq, Repr

/-- One element of the "photo" array (only file_id is read). -/
structure PhotoSize where
  file_id : String
deriving DecidableEq, Repr

/-- Telegram document attachment, fields as read by
extract_document_from_update. -/
structure TDocument where
  file_id : String
  file_name : Option String
  mime_type : Option String
deriving DecidableEq, Repr

/-- Telegram message object, collapsed to the fields the code reads;
chat_id stands for msg["chat"]["id"]. photo = some l models a present
"photo" key with array l (possibly empty). -/
structure TMessage where
  chat_id : Int
  text : Option String
  caption : Option String
  fromUser : Option TUser
  photo : Option (List PhotoSize)
  document : Option TDocument
deriving DecidableEq, Repr

/-- Telegram callback_query object; message_chat_id stands for
cq["message"]["chat"]["id"] (the handlers read it unconditionally). -/
structure TCallbackQuery where
  id : String
  data : String
  message_chat_id : Int
  fromUser : Option TUser
deriving DecidableEq, Repr

/-- An inbound Telegram update: a JSON object holding at most one of
"message", "edited_message", "callback_query" (a field is some when the
key is present). -/
structure Update where
  message : Option TMessage
  edited_message : Option TMessage
  callback_query : Option TCallbackQuery
deriving DecidableEq, Repr

/-- UserInfo pydantic model from src/utils/telegram.py. -/
structure UserInfo where
  user_id : Int
  first_name : String
  last_name : Option String
  username : Option String
  is_bot : Bool
  language_code : Option String
deriving DecidableEq, Repr

/-- extract_chat_id_from_update: message, then callback_query, then
edited_message, else None. -/
def extract_chat_id_from_update (update : Update) : Option Int :=
  match update.message with
  | some m => some m.chat_id
  | none =>
    match update.callback_query with
    | some cq => some cq.message_chat_id
    | none =>
      match update.edited_message with
      | some m => some m.chat_id
      | none => none

/-- extract_message_text_from_update: text of the message (default ""),
callback data, or text of the edited message; "" when none apply. -/
def extract_message_text_from_update (update : Update) : String :=
  match update.message with
  | some m => m.text.getD ""
  | none =>
    match update.callback_query with
    | some cq => cq.data
    | none =>
      match update.edited_message with
      | some m => m.text.getD ""
      | none => ""

/-- extract_user_info_from_update: the "from" object of the message,
callback_query or edited message (in that order), mapped through the
dict.get defaults of the source. -/
def extract_user_info_from_update (update : Update) : Option UserInfo :=
  let user_data :=
    match update.message with
    | some m => m.fromUser
    | none =>
      match update.callback_query with
      | some cq => cq.fromUser
      | none =>
        match update.edited_message with
        | some m => m.fromUser
        | none => none
  match user_data with
  | none => none
  | some d =>
    some ⟨d.id, d.first_name.getD "User", d.last_name, d.username,
          d.is_bot.getD false, d.language_code⟩

/-- Photo data returned by extract_photo_from_update: the file_id of the
largest size plus the message caption. -/
structure PhotoData where
  file_id : String
  caption : Option String
deriving DecidableEq, Repr

/-- extract_photo_from_update: if the message (else the edited message)
carries a "photo" key, take the last array element; an empty array falls
through to None (without consulting the other branch, mirroring the
if/elif structure). -/
def extract_photo_from_update (update : Update) : Option PhotoData :=
  match update.message with
  | some m =>
    match m.photo with
    | some photos =>
      match photos.getLast? with
      | some largest => some ⟨largest.file_id, m.caption⟩
      | none => none
    | none =>
      match update.edited_message with
      | some em =>
        match em.photo with
        | some photos =>
          match photos.getLast? with
          | some largest => some ⟨largest.file_id, em.caption⟩
          | none => none
        | none => none
      | none => none
  | none =>
    match update.edited_message with
    | some em =>
      match em.photo with
      | some photos =>
        match photos.getLast? with
        | some largest => some ⟨largest.file_id, em.caption⟩
        | none => none
      | none => none
    | none => none

/-- Document data returned by extract_document_from_update. -/
structure DocumentData where
  file_id : String
  file_name : String
  mime_type : String
  caption : Option String
deriving DecidableEq, Repr

/-- extract_document_from_update: document of the message, else of the
edited message, with the source's dict.get defaults. -/
def extract_document_from_update (update : Update) : Option DocumentData :=
  match update.message with
  | some m =>
    match m.document with
    | some d =>
      some ⟨d.file_id, d.file_name.getD "document",
            d.mime_type.getD "application/octet-stream", m.caption⟩
    | none =>
      match update.edited_message with
      | some em =>
        match em.document with
        | some d =>
          some ⟨d.file_id, d.file_name.getD "document",
                d.mime_type.getD "application/octet-stream", em.caption⟩
        | none => none
      | none => none
  | none =>
    match update.edited_message with
    | some em =>
      match em.document with
      | some d =>
        some ⟨d.file_id, d.file_name.getD "document",
              d.mime_type.getD "application/octet-stream", em.caption⟩
      | none => none
    | none => none

/-- One part of a multimodal content array. -/
inductive ContentPart where
  | inputText (text : String)
  | inputImage (image_url : String)
  | inputFile (file_url : String)
deriving DecidableEq, Repr

/-- One role/content message of the OpenAI Responses input format. -/
structure MMessage where
  role : String
  content : List ContentPart
deriving DecidableEq, Repr

/-- The file_type argument of build_multimodal_input. -/
inductive FileType where
  | image
  | file
deriving DecidableEq, Repr

/-- Python truthiness of an Optional[str]: None and "" are falsy. -/
def pyTruthyStr : Option String → Bool
  | none => false
  | some s => s != ""

/-- build_multimodal_input(text, file_url, file_type): a single user
message whose content carries the caption text when truthy, followed by
the image or file reference. -/
def build_multimodal_input (text : Option String) (file_url : String)
    (file_type : FileType) : List MMessage :=
  let content :=
    (if pyTruthyStr text then
      match text with
      | some t => [ContentPart.inputText t]
      | none => []
    else []) ++
    (match file_type with
     | .image => [ContentPart.inputImage file_url]
     | .file => [ContentPart.inputFile file_url])
  [⟨"user", content⟩]

/-- Input handed to Runner.run: a plain string, a multimodal message list,
or a paused run state being resumed. -/
inductive AgentInput where
  | text (s : String)
  | messages (l : List MMessage)
  | runState (s : RunState)
deriving DecidableEq, Repr

/-- Python truthiness of the agent_input value at the `if not agent_input`
check: an empty string and an empty list are falsy. -/
def AgentInput.truthy : AgentInput → Bool
  | .text s => s != ""
  | .messages l => !l.isEmpty
  | .runState _ => true

/-- Python truthiness of the extracted chat id (`if not chat_id`): None
and 0 are falsy. -/
def chatIdTruthy : Option Int → Bool
  | none => false
  | some n => n != 0

/-- Outward-visible actions of a handler, in program order. enqueueTask is
the dispatch of a named background job through the ARQ pool created in
main.py's lifespan; it is part of the effect vocabulary because the worker
infrastructure exists, and a handler that never emits it provably does all
its work inline. -/
inductive Effect where
  | sendMessage (chat_id : Int) (text : String)
  | sendApprovalRequest (chat_id : Int) (tool_name : String)
      (arguments : Option String) (approval_id : String)
  | answerCallbackQuery (callback_query_id : String) (text : Option String)
  | engineRun (input : AgentInput)
  | applyApprove (i : Interruption)
  | applyReject (i : Interruption)
  | popItem
  | enqueueTask (taskKind : String)
deriving DecidableEq, Repr

/-- Number of engine invocations recorded in a trace. -/
def countEngineRuns (tr : List Effect) : Nat :=
  tr.countP (fun e => match e with | .engineRun _ => true | _ => false)

/-- Number of background-job dispatches recorded in a trace. -/
def countEnqueues (tr : List Effect) : Nat :=
  tr.countP (fun e => match e with | .enqueueTask _ => true | _ => false)

/-- Number of history rollbacks (session.pop_item calls) in a trace. -/
def countPops (tr : List Effect) : Nat :=
  tr.countP (fun e => match e with | .popItem => true | _ => false)

/-- Number of approve/reject decisions applied to a paused state. -/
def countDecisions (tr : List Effect) : Nat :=
  tr.countP (fun e => match e with
    | .applyApprove _ => true
    | .applyReject _ => true
    | _ => false)

/-- The bot-suppression reply text of the webhook. -/
def botNoticeText : String :=
  "🤖 I don\x27t respond to other bots. If you\x27re a human, please use a regular account!"

/-- Number of bot-suppression notices sent to a given chat. -/
def countBotNotices (tr : List Effect) : Nat :=
  tr.countP (fun e => match e with
    | .sendMessage _ text => text == botNoticeText
    | _ => false)

/-- Result of a completed Runner.run call: the pending interruptions, the
final output text, and result.to_state(). -/
structure RunResult where
  interruptions : List Interruption
  final_output : String
  state : RunState
deriving DecidableEq, Repr

/-- Oracle for process_message_task's external calls: the outcome of
get_telegram_file_url (error text or resolved URL) and of the single
Runner.run invocation. -/
structure MsgOracle where
  fileUrl : Except String String
  run : Except PyErr RunResult

/-- Oracle for a callback handler's single Runner.run invocation. -/
structure CbOracle where
  run : Except PyErr RunResult

/-- Helper for callback_data.split(":", 1) on character lists. -/
def splitCharsAtColon : List Char → Option (List Char × List Char)
  | [] => none
  | c :: cs =>
    if c = ':' then some ([], cs)
    else (splitCharsAtColon cs).map (fun p => (c :: p.1, p.2))

/-- callback_data.split(":", 1) followed by the two-variable unpacking:
some (action, rest) when a colon is present (splitting only at the first
one), none when the unpacking would raise ValueError. -/
def splitFirstColon (s : String) : Option (String × String) :=
  (splitCharsAtColon s.data).map (fun p => (String.mk p.1, String.mk p.2))

/-- Apology sent when the photo branch fails to resolve the file. -/
def imageApologyText : String :=
  "Sorry, I couldn\x27t process that image. Please try again or send a different image."

/-- Apology sent when the document branch fails to resolve the file. -/
def documentApologyText : String :=
  "Sorry, I couldn\x27t process that document. Please try again or send a different file."

/-- Apology sent on a guardrail tripwire, personalized with the sender's
first name. -/
def guardrailApology (first_name : String) : String :=
  "I\x27m sorry " ++ first_name ++
    ", I can\x27t help with that. Please ask me about something else."

/-- Generic failure notice of the message flows. -/
def genericErrorText : String :=
  "Sorry, something went wrong. Please try again later."

/-- The first_name both handlers derive from the extracted user info,
with the "User" default when the update carries no sender. -/
def first_name_of_update (update : Update) : String :=
  match extract_user_info_from_update update with
  | some ui => ui.first_name
  | none => "User"

/-- Outcome of the modality-classification block of process_message_task
(lines 58-117): either an early return (with the effects it produced) or
an agent input to run. -/
inductive MsgResolved where
  | earlyReturn (effects : List Effect)
  | run (input : AgentInput)
deriving DecidableEq, Repr

/-- The modality-classification block of process_message_task: photos
first, then documents, then plain text; file-resolution failures
short-circuit with an apology; a falsy agent_input (the
`if not agent_input` check) returns without effects. -/
def resolve_agent_input (oracle : MsgOracle) (update : Update)
    (chat_id : Int) : MsgResolved :=
  match extract_photo_from_update update with
  | some photo_data =>
    match oracle.fileUrl with
    | .error _ => .earlyReturn [.sendMessage chat_id imageApologyText]
    | .ok file_url =>
      let agent_input :=
        AgentInput.messages (build_multimodal_input photo_data.caption file_url .image)
      if agent_input.truthy then .run agent_input else .earlyReturn []
  | none =>
    match extract_document_from_update update with
    | some document_data =>
      match oracle.fileUrl with
      | .error _ => .earlyReturn [.sendMessage chat_id documentApologyText]
      | .ok file_url =>
        let agent_input :=
          AgentInput.messages (build_multimodal_input document_data.caption file_url .file)
        if agent_input.truthy then .run agent_input else .earlyReturn []
    | none =>
      let agent_input := AgentInput.text (extract_message_text_from_update update)
      if agent_input.truthy then .run agent_input else .earlyReturn []

/-- process_message_task(ctx, update): the ARQ task for a plain inbound
message. The code before the try block (chat id and user extraction) is
total, so the task never raises; the Except return type records that no
exception escapes the task boundary. -/
def process_message_task (oracle : MsgOracle) (now : Nat) (store : Store)
    (update : Update) : Except PyErr (List Effect × Store) :=
  match extract_chat_id_from_update update with
  | none => .ok ([], store)
  | some chat_id =>
    if chat_id = 0 then .ok ([], store)
    else
      let first_name := first_name_of_update update
      match resolve_agent_input oracle update chat_id with
      | .earlyReturn effects => .ok (effects, store)
      | .run agent_input =>
        match oracle.run with
        | .error .guardrailTriggered =>
          .ok ([.engineRun agent_input,
                .sendMessage chat_id (guardrailApology first_name),
                .popItem], store)
        | .error _ =>
          .ok ([.engineRun agent_input,
                .sendMessage chat_id genericErrorText,
                .popItem], store)
        | .ok result =>
          match result.interruptions with
          | [] =>
            .ok ([.engineRun agent_input,
                  .sendMessage chat_id result.final_output], store)
          | interruption :: _ =>
            let saved := save_pending_approval chat_id result.state now store
            .ok ([.engineRun agent_input,
                  .sendApprovalRequest chat_id (interruption.name.getD "unknown_tool")
                    interruption.arguments saved.1], saved.2)

/-- Decision block of the callback handlers: approve applies approve and
acknowledges with the Approved toast; any other action string falls into
the else branch, applying reject and acknowledging with the Rejected
toast. -/
def cbDecisionEffects (action : String) (callback_id : String)
    (i : Interruption) : List Effect :=
  if action = "approve" then
    [.applyApprove i, .answerCallbackQuery callback_id (some "✅ Approved")]
  else
    [.applyReject i, .answerCallbackQuery callback_id (some "❌ Rejected")]

/-- Result of the try block of process_callback_query_task: the effects it
performed, the store it left, and the exception it raised, if any. -/
structure CbBodyOut where
  effects : List Effect
  store : Store
  raised : Option PyErr

/-- The try block of process_callback_query_task (lines 206-270): parse
the callback data, look up the ledger, print and decide on the first
interruption (printing interruptions[0] raises IndexError when the list
is empty), resume the engine, route the result, and delete the ledger
entry last. -/
def cbTryBody (oracle : CbOracle) (now : Nat) (store : Store)
    (cq : TCallbackQuery) : CbBodyOut :=
  match splitFirstColon cq.data with
  | none =>
    ⟨[], store, some (.valueError "not enough values to unpack (expected 2, got 1)")⟩
  | some (action, approval_id) =>
    match get_pending_approval approval_id now store with
    | .error e => ⟨[], store, some e⟩
    | .ok state =>
      match state.get_interruptions with
      | [] => ⟨[], store, some .indexError⟩
      | i :: _ =>
        let decided := cbDecisionEffects action cq.id i
        match oracle.run with
        | .error e =>
          ⟨decided ++ [.engineRun (.runState state)], store, some e⟩
        | .ok result =>
          match result.interruptions with
          | [] =>
            let afterDelete := delete_pending_approval approval_id now store
            ⟨decided ++ [.engineRun (.runState state),
                .sendMessage cq.message_chat_id result.final_output],
             afterDelete.1, none⟩
          | new_interruption :: _ =>
            let saved := save_pending_approval cq.message_chat_id
              result.state now store
            let afterDelete := delete_pending_approval approval_id now saved.2
            ⟨decided ++ [.engineRun (.runState state),
                .sendApprovalRequest cq.message_chat_id
                  (new_interruption.name.getD "unknown_tool")
                  new_interruption.arguments saved.1],
             afterDelete.1, none⟩

/-- except ValueError handler of the callback task: expired toast, expiry
chat message, and two history rollbacks. -/
def cbExpiredHandlerEffects (callback_id : String) (chat_id : Int) : List Effect :=
  [.answerCallbackQuery callback_id (some "⚠️ This approval has expired"),
   .sendMessage chat_id
     "⚠️ This approval request has expired. Please try your request again.",
   .popItem, .popItem]

/-- except Exception handler of the callback task: error toast, an error
chat message embedding str(e), and two history rollbacks. -/
def cbGenericHandlerEffects (callback_id : String) (chat_id : Int)
    (e : PyErr) : List Effect :=
  [.answerCallbackQuery callback_id (some "❌ Error processing approval"),
   .sendMessage chat_id ("❌ Error processing approval: " ++ e.str),
   .popItem, .popItem]

/-- process_callback_query_task(ctx, update): the ARQ task for an inbound
approve/reject decision. Reading update["callback_query"] (and its id,
data and chat) happens before the try block, so a non-callback update
raises KeyError past the task boundary; inside the try, ValueError is
recovered into the expired branch and every other exception into the
generic error branch. -/
def process_callback_query_task (oracle : CbOracle) (now : Nat)
    (store : Store) (update : Update) : Except PyErr (List Effect × Store) :=
  match update.callback_query with
  | none => .error (.keyError "callback_query")
  | some cq =>
    let body := cbTryBody oracle now store cq
    match body.raised with
    | none => .ok (body.effects, body.store)
    | some e =>
      if e.isValueError then
        .ok (body.effects ++ cbExpiredHandlerEffects cq.id cq.message_chat_id,
             body.store)
      else
        .ok (body.effects ++ cbGenericHandlerEffects cq.id cq.message_chat_id e,
             body.store)

/-- FastAPI status payload returned by the route handlers. -/
structure StatusResponse where
  status : String
  message : String
deriving DecidableEq, Repr

/-- Outcome of a route handler: the effects it performed, the store it
left, and either its response dict or the exception that escaped it. -/
structure WebOutcome where
  effects : List Effect
  store : Store
  response : Except PyErr StatusResponse

/-- Result of the try block of the route-level handle_callback_query; in
this version the session is created only after get_pending_approval
succeeds, so sessionBound records whether the local variable session was
assigned before the raise point. -/
structure HcqBodyOut where
  effects : List Effect
  store : Store
  raised : Option PyErr
  sessionBound : Bool

/-- The try block of the route-level handle_callback_query (lines 56-135):
identical decision/resume/route/delete sequence to the task version, but
the session local is assigned after the ledger lookup. -/
def hcqTryBody (oracle : CbOracle) (now : Nat) (store : Store)
    (cq : TCallbackQuery) : HcqBodyOut :=
  match splitFirstColon cq.data with
  | none =>
    ⟨[], store,
     some (.valueError "not enough values to unpack (expected 2, got 1)"), false⟩
  | some (action, approval_id) =>
    match get_pending_approval approval_id now store with
    | .error e => ⟨[], store, some e, false⟩
    | .ok state =>
      match state.get_interruptions with
      | [] => ⟨[], store, some .indexError, true⟩
      | i :: _ =>
        let decided := cbDecisionEffects action cq.id i
        match oracle.run with
        | .error e =>
          ⟨decided ++ [.engineRun (.runState state)], store, some e, true⟩
        | .ok result =>
          match result.interruptions with
          | [] =>
            let afterDelete := delete_pending_approval approval_id now store
            ⟨decided ++ [.engineRun (.runState state),
                .sendMessage cq.message_chat_id result.final_output],
             afterDelete.1, none, true⟩
          | new_interruption :: _ =>
            let saved := save_pending_approval cq.message_chat_id
              result.state now store
            let afterDelete := delete_pending_approval approval_id now saved.2
            ⟨decided ++ [.engineRun (.runState state),
                .sendApprovalRequest cq.message_chat_id
                  (new_interruption.name.getD "unknown_tool")
                  new_interruption.arguments saved.1],
             afterDelete.1, none, true⟩

/-- Exception message of the UnboundLocalError raised when an except
handler of the route-level handle_callback_query reaches
session.pop_item() with the session local still unassigned. -/
def unboundSessionMsg : String :=
  "cannot access local variable \x27session\x27 where it is not associated with a value"

/-- handle_callback_query(update), the inline route version awaited by the
webhook. Its except handlers send their toast and chat message and then
call session.pop_item() twice; when the raise happened before the session
local was assigned (split or ledger lookup), that call itself raises
UnboundLocalError, which escapes the handler (and the webhook, which does
not wrap this call). -/
def handle_callback_query (oracle : CbOracle) (now : Nat) (store : Store)
    (update : Update) : WebOutcome :=
  match update.callback_query with
  | none => ⟨[], store, .error (.keyError "callback_query")⟩
  | some cq =>
    let body := hcqTryBody oracle now store cq
    match body.raised with
    | none => ⟨body.effects, body.store, .ok ⟨"ok", "Approval processed"⟩⟩
    | some e =>
      if e.isValueError then
        if body.sessionBound then
          ⟨body.effects ++ cbExpiredHandlerEffects cq.id cq.message_chat_id,
           body.store, .ok ⟨"ok", "Approval expired"⟩⟩
        else
          ⟨body.effects ++ (cbExpiredHandlerEffects cq.id cq.message_chat_id).take 2,
           body.store, .error (.otherError unboundSessionMsg)⟩
      else
        if body.sessionBound then
          ⟨body.effects ++ cbGenericHandlerEffects cq.id cq.message_chat_id e,
           body.store, .ok ⟨"error", e.str⟩⟩
        else
          ⟨body.effects ++ (cbGenericHandlerEffects cq.id cq.message_chat_id e).take 2,
           body.store, .error (.otherError unboundSessionMsg)⟩

/-- Outcome of the webhook's inline modality-classification block (lines
228-288): an early return with its effects and response dict, or an agent
input to run. -/
inductive WhResolved where
  | earlyReturn (effects : List Effect) (resp : StatusResponse)
  | run (input : AgentInput)
deriving DecidableEq, Repr

/-- The webhook's inline modality classification: same precedence and
apologies as the task version, with route-specific response dicts. -/
def wh_resolve_agent_input (oracle : MsgOracle) (update : Update)
    (chat_id : Int) : WhResolved :=
  match extract_photo_from_update update with
  | some photo_data =>
    match oracle.fileUrl with
    | .error e =>
      .earlyReturn [.sendMessage chat_id imageApologyText]
        ⟨"ok", "Failed to process photo: " ++ e⟩
    | .ok file_url =>
      let agent_input :=
        AgentInput.messages (build_multimodal_input photo_data.caption file_url .image)
      if agent_input.truthy then .run agent_input
      else .earlyReturn [] ⟨"ok", "No valid input found"⟩
  | none =>
    match extract_document_from_update update with
    | some document_data =>
      match oracle.fileUrl with
      | .error e =>
        .earlyReturn [.sendMessage chat_id documentApologyText]
          ⟨"ok", "Failed to process document: " ++ e⟩
      | .ok file_url =>
        let agent_input :=
          AgentInput.messages (build_multimodal_input document_data.caption file_url .file)
        if agent_input.truthy then .run agent_input
        else .earlyReturn [] ⟨"ok", "No valid input found"⟩
    | none =>
      let agent_input := AgentInput.text (extract_message_text_from_update update)
      if agent_input.truthy then .run agent_input
      else .earlyReturn [] ⟨"ok", "No valid input found"⟩

/-- receive_webhook(request, header): verifies the secret header, then
either awaits handle_callback_query inline for callback updates, or runs
the whole message flow — bot check, modality classification, engine
invocation, approval persistence — inline in the request handler; no
branch dispatches a background task. -/
def receive_webhook (secret : String) (headerToken : Option String)
    (msgOracle : MsgOracle) (cbOracle : CbOracle) (now : Nat)
    (store : Store) (update : Update) : WebOutcome :=
  if headerToken ≠ some secret then
    ⟨[], store, .error (.httpException 403 "Invalid secret token")⟩
  else
    match update.callback_query with
    | some _ => handle_callback_query cbOracle now store update
    | none =>
      let user_info := extract_user_info_from_update update
      match extract_chat_id_from_update update with
      | none => ⟨[], store, .ok ⟨"ok", "No chat_id found"⟩⟩
      | some chat_id =>
        if chat_id = 0 then ⟨[], store, .ok ⟨"ok", "No chat_id found"⟩⟩
        else
          if (match user_info with | some ui => ui.is_bot | none => false) then
            ⟨[.sendMessage chat_id botNoticeText], store,
             .ok ⟨"ok", "Message from bot, responded accordingly"⟩⟩
          else
            let first_name := first_name_of_update update
            match wh_resolve_agent_input msgOracle update chat_id with
            | .earlyReturn effects resp => ⟨effects, store, .ok resp⟩
            | .run agent_input =>
              match msgOracle.run with
              | .error .guardrailTriggered =>
                ⟨[.engineRun agent_input,
                  .sendMessage chat_id (guardrailApology first_name),
                  .popItem], store, .ok ⟨"ok", "Webhook received successfully"⟩⟩
              | .error _ =>
                ⟨[.engineRun agent_input,
                  .sendMessage chat_id genericErrorText,
                  .popItem], store, .ok ⟨"ok", "Webhook received successfully"⟩⟩
              | .ok result =>
                match result.interruptions with
                | [] =>
                  ⟨[.engineRun agent_input,
                    .sendMessage chat_id result.final_output], store,
                   .ok ⟨"ok", "Sent final response to user"⟩⟩
                | interruption :: _ =>
                  let saved := save_pending_approval chat_id result.state now store
                  ⟨[.engineRun agent_input,
                    .sendApprovalRequest chat_id
                      (interruption.name.getD "unknown_tool")
                      interruption.arguments saved.1], saved.2,
                   .ok ⟨"ok", "Awaiting approval"⟩⟩

/-!  Helper lemmas about the store. -/

/-- A key filtered out of the store is gone at every time. -/
theorem redisGet_filter_ne (store : Store) (k : String) (t : Nat) :
    redisGet (store.filter (fun e => e.1 != k)) k t = none := by
  unfold redisGet
  cases hf : (store.filter (fun e => e.1 != k)).find? (fun e => e.1 == k) with
  | none => rfl
  | some e =>
    have hp := List.find?_some hf
    have hm := List.mem_of_find?_eq_some hf
    have hne := (List.mem_filter.mp hm).2
    simp only [beq_iff_eq] at hp
    simp only [bne_iff_ne] at hne
    exact absurd hp hne

/-- An absent or expired key stays absent or expired at any later time. -/
theorem redisGet_none_mono (store : Store) (k : String) (t t' : Nat)
    (h : t ≤ t') (hg : redisGet store k t = none) :
    redisGet store k t' = none := by
  unfold redisGet at hg ⊢
  cases hf : store.find? (fun e => e.1 == k) with
  | none => rfl
  | some e =>
    rw [hf] at hg
    by_cases hlt : t < e.2.expiresAt
    · simp [hlt] at hg
    · have hlt' : ¬ t' < e.2.expiresAt := fun hc => hlt (lt_of_le_of_lt h hc)
      simp [hlt']

/-- No entry for a filtered-out key survives in the store. -/
theorem find?_filter_self_ne (l : Store) (k : String) :
    (l.filter (fun e => e.1 != k)).find? (fun e => e.1 == k) = none := by
  rw [List.find?_eq_none]
  intro x hx
  have hne := (List.mem_filter.mp hx).2
  simp only [bne_iff_ne] at hne
  simp [hne]

/-- When the ledger lookup finds nothing for the referenced approval id,
the callback task takes exactly the expired branch: expired toast, expiry
chat message, two rollbacks, store untouched. -/
theorem task_expired_of_get_none (oracle : CbOracle) (now : Nat)
    (store : Store) (update : Update) (cq : TCallbackQuery)
    (action aid : String)
    (h1 : update.callback_query = some cq)
    (h2 : splitFirstColon cq.data = some (action, aid))
    (h3 : redisGet store aid now = none) :
    process_callback_query_task oracle now store update =
      .ok (cbExpiredHandlerEffects cq.id cq.message_chat_id, store) := by
  simp only [process_callback_query_task, h1, cbTryBody, h2,
    get_pending_approval, h3, PyErr.isValueError]
  simp

/-!  Claim theorems. -/

/-- C3. Ledger round-trip: saving a paused-execution snapshot S for any
chat and retrieving it under the returned approval_id before the TTL
elapses yields exactly S back (the engine codec is lossless, so equality
of the recovered RunState is equality of the serialized form). -/
theorem ledger_round_trip (chat_id : Int) (S : RunState) (now₁ now₂ : Nat)
    (store : Store) (hTTL : now₂ < now₁ + APPROVAL_TTL * 1000) :
    get_pending_approval (save_pending_approval chat_id S now₁ store).1 now₂
      (save_pending_approval chat_id S now₁ store).2 = .ok S := by
  simp only [save_pending_approval, redisSet, RunState.to_string]
  simp only [get_pending_approval, redisGet]
  rw [List.find?_cons_of_pos _ (by simp)]
  simp [hTTL, StoredVal.falsy, jsonIndex, RunState.from_string]

/-- Witness for C3 at a concrete snapshot, chat and pair of times inside
the TTL window. -/
theorem ledger_round_trip_witness :
    get_pending_approval
      (save_pending_approval 42 ⟨[⟨some "fetch_weather", some "city=Pune"⟩]⟩ 1000 []).1
      200000
      (save_pending_approval 42 ⟨[⟨some "fetch_weather", some "city=Pune"⟩]⟩ 1000 []).2 =
      .ok ⟨[⟨some "fetch_weather", some "city=Pune"⟩]⟩ :=
  ledger_round_trip 42 ⟨[⟨some "fetch_weather", some "city=Pune"⟩]⟩ 1000 200000 []
    (by norm_num [APPROVAL_TTL])

/-- A stored value that is valid JSON but lacks the "state" field: the
string "hitl:42:999" maps to the serialization of an object with only a
chat_id field, unexpired at time 1000. -/
def c4Store : Store :=
  [("hitl:42:999", ⟨.parsed (.obj [("chat_id", .num 42)]), 5000⟩)]

/-- C4 counterexample. For stored content that is invalid as an approval
record yet valid JSON (an object without a "state" key), retrieval raises
KeyError — re-raised unchanged by the final except clause — not the single
ValueError kind the claim asserts: an error kind other than NotFoundError
escapes to the caller for invalid stored content. -/
theorem approval_error_kind_counterexample :
    get_pending_approval "hitl:42:999" 1000 c4Store = .error (.keyError "state") ∧
    (PyErr.keyError "state").isValueError = false :=
  ⟨rfl, rfl⟩

/-- C4 as amended: the ValueError collapse covers the absent/expired case
and content json.loads rejects, but JSON-decodable content without the
expected shape escapes with its own error kind (KeyError when the decoded
object lacks a "state" field). -/
theorem approval_error_kind_amended :
    (∀ (aid : String) (now : Nat) (store : Store),
       redisGet store aid now = none →
       get_pending_approval aid now store =
         .error (.valueError ("Approval state not found or expired: " ++ aid))) ∧
    (∀ (aid : String) (now : Nat) (store : Store) (raw : String),
       redisGet store aid now = some (.unparseable raw) → raw ≠ "" →
       get_pending_approval aid now store =
         .error (.valueError ("Invalid approval state data: " ++ aid))) ∧
    (∀ (aid : String) (now : Nat) (store : Store) (fields : List (String × Json)),
       redisGet store aid now = some (.parsed (.obj fields)) →
       fields.find? (fun f => f.1 == "state") = none →
       get_pending_approval aid now store = .error (.keyError "state")) := by
  refine ⟨?_, ?_, ?_⟩
  · intro aid now store hget
    simp [get_pending_approval, hget]
  · intro aid now store raw hget hraw
    simp [get_pending_approval, hget, StoredVal.falsy, hraw]
  · intro aid now store fields hget hfind
    simp [get_pending_approval, hget, StoredVal.falsy, jsonIndex, hfind]

/-- Witness for the amended C4: the absent-key conjunct at an empty store,
and the wrong-shape conjunct at the c4Store entry. -/
theorem approval_error_kind_amended_witness :
    get_pending_approval "missing" 0 [] =
      .error (.valueError ("Approval state not found or expired: " ++ "missing")) ∧
    get_pending_approval "hitl:42:999" 4000 c4Store = .error (.keyError "state") :=
  ⟨approval_error_kind_amended.1 "missing" 0 [] rfl,
   approval_error_kind_amended.2.2 "hitl:42:999" 4000 c4Store [("chat_id", .num 42)]
     rfl rfl⟩

/-- C7. Idempotent expiry handling: a callback decision referencing an
approval id with no live ledger entry at lookup time yields exactly the
expired outcome — expired toast plus expiry chat message — invokes the
engine zero times, leaves the store unchanged, and every later replay
(any oracle, any later time) yields that same outcome again. -/
theorem idempotent_expired_callback (oracle : CbOracle) (now : Nat)
    (store : Store) (update : Update) (cq : TCallbackQuery)
    (action aid : String)
    (h1 : update.callback_query = some cq)
    (h2 : splitFirstColon cq.data = some (action, aid))
    (h3 : redisGet store aid now = none) :
    process_callback_query_task oracle now store update =
      .ok (cbExpiredHandlerEffects cq.id cq.message_chat_id, store) ∧
    countEngineRuns (cbExpiredHandlerEffects cq.id cq.message_chat_id) = 0 ∧
    ∀ (oracle₂ : CbOracle) (now₂ : Nat), now ≤ now₂ →
      process_callback_query_task oracle₂ now₂ store update =
        .ok (cbExpiredHandlerEffects cq.id cq.message_chat_id, store) :=
  ⟨task_expired_of_get_none oracle now store update cq action aid h1 h2 h3,
   rfl,
   fun oracle₂ now₂ hle =>
     task_expired_of_get_none oracle₂ now₂ store update cq action aid h1 h2
       (redisGet_none_mono store aid now now₂ hle h3)⟩

/-- Concrete callback update used by the C7 witness. -/
def w7Update : Update := ⟨none, none, some ⟨"cb1", "approve:hitl:42:1", 42, none⟩⟩

/-- Witness for C7: a decision on an empty store takes the expired branch
at time 5 and again on replay at time 6. -/
theorem idempotent_expired_callback_witness :
    process_callback_query_task ⟨.ok ⟨[], "unused", ⟨[]⟩⟩⟩ 5 [] w7Update =
      .ok (cbExpiredHandlerEffects "cb1" 42, []) ∧
    process_callback_query_task ⟨.ok ⟨[], "unused", ⟨[]⟩⟩⟩ 6 [] w7Update =
      .ok (cbExpiredHandlerEffects "cb1" 42, []) :=
  ⟨(idempotent_expired_callback ⟨.ok ⟨[], "unused", ⟨[]⟩⟩⟩ 5 [] w7Update
      ⟨"cb1", "approve:hitl:42:1", 42, none⟩ "approve" "hitl:42:1" rfl rfl rfl).1,
   (idempotent_expired_callback ⟨.ok ⟨[], "unused", ⟨[]⟩⟩⟩ 5 [] w7Update
      ⟨"cb1", "approve:hitl:42:1", 42, none⟩ "approve" "hitl:42:1" rfl rfl rfl).2.2
     ⟨.ok ⟨[], "unused", ⟨[]⟩⟩⟩ 6 (by norm_num)⟩

/-- C1. Single-use approvals: when a decision is applied to a retrieved
paused state and the resumed run is routed (to completion or to a nested
interruption), the ledger entry for that approval id is gone from the
resulting store, and any second decision referencing the same approval id
then takes exactly the expired branch with zero engine invocations. -/
theorem single_use_approval (oracle oracle₂ : CbOracle) (now now₂ : Nat)
    (store : Store) (update update₂ : Update) (cq cq₂ : TCallbackQuery)
    (state : RunState) (result : RunResult)
    (action approval_id action₂ : String)
    (tr : List Effect) (store₁ : Store)
    (h1 : update.callback_query = some cq)
    (h2 : splitFirstColon cq.data = some (action, approval_id))
    (h3 : get_pending_approval approval_id now store = .ok state)
    (h4 : state.interruptions ≠ [])
    (h5 : oracle.run = .ok result)
    (h6 : update₂.callback_query = some cq₂)
    (h7 : splitFirstColon cq₂.data = some (action₂, approval_id))
    (htask : process_callback_query_task oracle now store update =
      .ok (tr, store₁)) :
    store₁.find? (fun e => e.1 == approval_id) = none ∧
    process_callback_query_task oracle₂ now₂ store₁ update₂ =
      .ok (cbExpiredHandlerEffects cq₂.id cq₂.message_chat_id, store₁) ∧
    countEngineRuns (cbExpiredHandlerEffects cq₂.id cq₂.message_chat_id) = 0 := by
  rcases hi : state.interruptions with _ | ⟨i, rest⟩
  · exact absurd hi h4
  simp only [process_callback_query_task, h1, cbTryBody, h2, h3,
    RunState.get_interruptions, hi, h5, delete_pending_approval,
    redisDelete] at htask
  rcases hr : result.interruptions with _ | ⟨i', rest'⟩ <;>
    simp only [hr, Except.ok.injEq, Prod.mk.injEq] at htask <;>
    obtain ⟨-, hstore⟩ := htask <;>
    refine ⟨?_, task_expired_of_get_none oracle₂ now₂ store₁ update₂ cq₂ action₂
        approval_id h6 h7 ?_, rfl⟩ <;>
    rw [← hstore]
  · exact find?_filter_self_ne _ _
  · exact redisGet_filter_ne _ _ _
  · exact find?_filter_self_ne _ _
  · exact redisGet_filter_ne _ _ _

/-- Paused state with one pending interruption, used by concrete witnesses. -/
def w1State : RunState := ⟨[⟨some "fetch_weather", some "city=Pune"⟩]⟩

/-- A live, well-formed ledger entry for w1State under hitl:42:1. -/
def w1Store : Store :=
  [("hitl:42:1",
    ⟨.parsed (.obj [("state", .blob w1State), ("chat_id", .num 42),
                    ("timestamp", .num 1)]), 1000000⟩)]

/-- First decision callback of the C1 witness. -/
def w1Update : Update := ⟨none, none, some ⟨"cb1", "approve:hitl:42:1", 42, none⟩⟩

/-- Replayed decision callback of the C1 witness, referencing the same
approval id. -/
def w1Update2 : Update := ⟨none, none, some ⟨"cb2", "reject:hitl:42:1", 42, none⟩⟩

/-- Witness for C1: after a concrete approve decision resumes to
completion, the entry is gone and the replay takes the expired branch. -/
theorem single_use_approval_witness :
    (([] : Store).find? (fun e => e.1 == "hitl:42:1") = none) ∧
    process_callback_query_task ⟨.ok ⟨[], "done", ⟨[]⟩⟩⟩ 99 [] w1Update2 =
      .ok (cbExpiredHandlerEffects "cb2" 42, []) ∧
    countEngineRuns (cbExpiredHandlerEffects "cb2" 42) = 0 :=
  single_use_approval ⟨.ok ⟨[], "done", ⟨[]⟩⟩⟩ ⟨.ok ⟨[], "done", ⟨[]⟩⟩⟩ 10 99
    w1Store w1Update w1Update2
    ⟨"cb1", "approve:hitl:42:1", 42, none⟩ ⟨"cb2", "reject:hitl:42:1", 42, none⟩
    w1State ⟨[], "done", ⟨[]⟩⟩ "approve" "hitl:42:1" "reject"
    [.applyApprove ⟨some "fetch_weather", some "city=Pune"⟩,
     .answerCallbackQuery "cb1" (some "✅ Approved"),
     .engineRun (.runState w1State),
     .sendMessage 42 "done"] []
    rfl rfl rfl (by decide) rfl rfl rfl rfl

/-- C9. Any callback whose action segment — the text before the first
colon — is anything other than exactly "approve" falls into the else
branch: reject is applied to the first interruption of the retrieved
state and the Rejected acknowledgment is sent; no branch distinguishes
malformed or unknown actions, and exactly one decision is applied. -/
theorem non_approve_actions_reject (oracle : CbOracle) (now : Nat)
    (store : Store) (update : Update) (cq : TCallbackQuery)
    (state : RunState) (action approval_id : String)
    (i : Interruption) (rest : List Interruption)
    (tr : List Effect) (store₁ : Store)
    (h1 : update.callback_query = some cq)
    (h2 : splitFirstColon cq.data = some (action, approval_id))
    (h3 : get_pending_approval approval_id now store = .ok state)
    (h4 : state.interruptions = i :: rest)
    (h5 : action ≠ "approve")
    (htask : process_callback_query_task oracle now store update =
      .ok (tr, store₁)) :
    tr.take 2 = [.applyReject i, .answerCallbackQuery cq.id (some "❌ Rejected")] ∧
    countDecisions tr = 1 := by
  simp only [process_callback_query_task, h1, cbTryBody, h2, h3,
    RunState.get_interruptions, h4, cbDecisionEffects, if_neg h5] at htask
  rcases ho : oracle.run with e | result
  · simp only [ho] at htask
    cases hv : e.isValueError
    · simp only [hv, Bool.false_eq_true, if_false, reduceIte,
        Except.ok.injEq, Prod.mk.injEq] at htask
      obtain ⟨htr, -⟩ := htask
      subst htr
      exact ⟨rfl, rfl⟩
    · simp only [hv, if_true, reduceIte, Except.ok.injEq, Prod.mk.injEq] at htask
      obtain ⟨htr, -⟩ := htask
      subst htr
      exact ⟨rfl, rfl⟩
  · simp only [ho] at htask
    rcases hr : result.interruptions with _ | ⟨i', rest'⟩
    · simp only [hr, Except.ok.injEq, Prod.mk.injEq] at htask
      obtain ⟨htr, -⟩ := htask
      subst htr
      exact ⟨rfl, rfl⟩
    · simp only [hr, Except.ok.injEq, Prod.mk.injEq] at htask
      obtain ⟨htr, -⟩ := htask
      subst htr
      exact ⟨rfl, rfl⟩

/-- Trace the callback task produces for the concrete C9 witness run. -/
def w9Trace : List Effect :=
  [.applyReject ⟨some "fetch_weather", some "city=Pune"⟩,
   .answerCallbackQuery "cb2" (some "❌ Rejected"),
   .engineRun (.runState w1State),
   .sendMessage 42 "ok!"]

/-- Witness for C9: a concrete "reject" decision on a valid approval. -/
theorem non_approve_actions_reject_witness :
    w9Trace.take 2 =
      [Effect.applyReject ⟨some "fetch_weather", some "city=Pune"⟩,
       Effect.answerCallbackQuery "cb2" (some "❌ Rejected")] ∧
    countDecisions w9Trace = 1 :=
  non_approve_actions_reject ⟨.ok ⟨[], "ok!", ⟨[]⟩⟩⟩ 10 w1Store w1Update2
    ⟨"cb2", "reject:hitl:42:1", 42, none⟩ w1State "reject" "hitl:42:1"
    ⟨some "fetch_weather", some "city=Pune"⟩ [] w9Trace []
    rfl rfl rfl rfl (by decide) rfl

/-- C10. A successfully retrieved paused state with an empty interruption
list never reaches the engine and never gets an approve or reject applied:
printing interruptions[0] raises IndexError, recovered by the generic
branch into an error acknowledgment, an error chat message, and two
history rollbacks, with the store unchanged. -/
theorem empty_interruptions_generic_error (oracle : CbOracle) (now : Nat)
    (store : Store) (update : Update) (cq : TCallbackQuery)
    (state : RunState) (action approval_id : String)
    (h1 : update.callback_query = some cq)
    (h2 : splitFirstColon cq.data = some (action, approval_id))
    (h3 : get_pending_approval approval_id now store = .ok state)
    (h4 : state.interruptions = []) :
    process_callback_query_task oracle now store update =
      .ok (cbGenericHandlerEffects cq.id cq.message_chat_id .indexError, store) ∧
    countEngineRuns (cbGenericHandlerEffects cq.id cq.message_chat_id .indexError) = 0 ∧
    countDecisions (cbGenericHandlerEffects cq.id cq.message_chat_id .indexError) = 0 ∧
    countPops (cbGenericHandlerEffects cq.id cq.message_chat_id .indexError) = 2 := by
  refine ⟨?_, rfl, rfl, rfl⟩
  simp only [process_callback_query_task, h1, cbTryBody, h2, h3,
    RunState.get_interruptions, h4, PyErr.isValueError]
  simp

/-- Paused state with no pending interruption, for the C10 witness. -/
def w10State : RunState := ⟨[]⟩

/-- Ledger entry whose snapshot has an empty interruption list. -/
def w10Store : Store :=
  [("hitl:42:1",
    ⟨.parsed (.obj [("state", .blob w10State), ("chat_id", .num 42),
                    ("timestamp", .num 1)]), 1000000⟩)]

/-- Witness for C10 at a concrete empty-interruption snapshot. -/
theorem empty_interruptions_generic_error_witness :
    process_callback_query_task ⟨.ok ⟨[], "unused", ⟨[]⟩⟩⟩ 10 w10Store w1Update =
      .ok (cbGenericHandlerEffects "cb1" 42 .indexError, w10Store) ∧
    countEngineRuns (cbGenericHandlerEffects "cb1" 42 .indexError) = 0 ∧
    countDecisions (cbGenericHandlerEffects "cb1" 42 .indexError) = 0 ∧
    countPops (cbGenericHandlerEffects "cb1" 42 .indexError) = 2 :=
  empty_interruptions_generic_error ⟨.ok ⟨[], "unused", ⟨[]⟩⟩⟩ 10 w10Store w1Update
    ⟨"cb1", "approve:hitl:42:1", 42, none⟩ w10State "approve" "hitl:42:1"
    rfl rfl rfl rfl

/-- C6. Modality precedence and caption preservation, in four parts:
(1) a message with a photo and a non-empty caption, once the file URL
resolves, classifies to exactly one multimodal input combining the caption
text and the image reference — regardless of any document also present,
photos win; (2) while a photo is present, no classification ever yields a
text-only input; (3) whenever classification yields an input, the task
invokes the engine exactly once and on exactly that input; (4) a message
matching no modality is a no-op: no effects and an unchanged store. -/
theorem modality_precedence_and_caption :
    (∀ (oracle : MsgOracle) (update : Update) (chat : Int) (pd : PhotoData)
       (c url : String),
       extract_photo_from_update update = some pd →
       pd.caption = some c → c ≠ "" →
       oracle.fileUrl = .ok url →
       resolve_agent_input oracle update chat =
         .run (.messages [⟨"user", [.inputText c, .inputImage url]⟩])) ∧
    (∀ (oracle : MsgOracle) (update : Update) (chat : Int) (pd : PhotoData)
       (input : AgentInput) (s : String),
       extract_photo_from_update update = some pd →
       resolve_agent_input oracle update chat = .run input →
       input ≠ .text s) ∧
    (∀ (oracle : MsgOracle) (now : Nat) (store : Store) (update : Update)
       (chat : Int) (input : AgentInput) (tr : List Effect) (store' : Store),
       extract_chat_id_from_update update = some chat → chat ≠ 0 →
       resolve_agent_input oracle update chat = .run input →
       process_message_task oracle now store update = .ok (tr, store') →
       countEngineRuns tr = 1 ∧ Effect.engineRun input ∈ tr) ∧
    (∀ (oracle : MsgOracle) (now : Nat) (store : Store) (update : Update)
       (chat : Int),
       extract_chat_id_from_update update = some chat → chat ≠ 0 →
       extract_photo_from_update update = none →
       extract_document_from_update update = none →
       extract_message_text_from_update update = "" →
       process_message_task oracle now store update = .ok ([], store)) := by
  refine ⟨?_, ?_, ?_, ?_⟩
  · intro oracle update chat pd c url hp hc hcne hurl
    simp [resolve_agent_input, hp, hurl, build_multimodal_input, hc,
      pyTruthyStr, hcne, AgentInput.truthy]
  · intro oracle update chat pd input s hp hres
    simp only [resolve_agent_input, hp] at hres
    cases hu : oracle.fileUrl with
    | error e => simp [hu] at hres
    | ok url =>
      simp only [hu] at hres
      by_cases ht :
          (AgentInput.messages
            (build_multimodal_input pd.caption url .image)).truthy
      · rw [if_pos ht] at hres
        simp only [MsgResolved.run.injEq] at hres
        rw [← hres]
        simp
      · rw [if_neg ht] at hres
        exact absurd hres (by simp)
  · intro oracle now store update chat input tr store' hchat hch0 hres htask
    simp only [process_message_task, hchat, if_neg hch0, hres] at htask
    rcases ho : oracle.run with e | result
    · cases e <;>
        simp only [ho, Except.ok.injEq, Prod.mk.injEq] at htask <;>
        obtain ⟨htr, -⟩ := htask <;>
        subst htr <;>
        exact ⟨rfl, by simp⟩
    · rcases hr : result.interruptions with _ | ⟨i', r'⟩ <;>
        simp only [ho, hr, Except.ok.injEq, Prod.mk.injEq] at htask <;>
        obtain ⟨htr, -⟩ := htask <;>
        subst htr <;>
        exact ⟨rfl, by simp⟩
  · intro oracle now store update chat hchat hch0 hp hd ht
    simp [process_message_task, hchat, hch0, resolve_agent_input, hp, hd, ht,
      AgentInput.truthy]

/-- Photo message with caption used by the C6 witness. -/
def w6Update : Update :=
  ⟨some ⟨42, none, some "What is this?", none, some [⟨"f1"⟩], none⟩, none, none⟩

/-- Oracle resolving the photo URL for the C6 witness. -/
def w6Oracle : MsgOracle := ⟨.ok "http://files.example/img.jpg", .ok ⟨[], "resp", ⟨[]⟩⟩⟩

/-- Message with no photo, no document and no text, for the no-op part of
the C6 witness. -/
def w6NoopUpdate : Update := ⟨some ⟨42, none, none, none, none, none⟩, none, none⟩

/-- Witness for C6: the concrete photo-with-caption classification and the
concrete no-modality no-op. -/
theorem modality_precedence_and_caption_witness :
    resolve_agent_input w6Oracle w6Update 42 =
      .run (.messages
        [⟨"user", [.inputText "What is this?",
                   .inputImage "http://files.example/img.jpg"]⟩]) ∧
    process_message_task w6Oracle 0 [] w6NoopUpdate = .ok ([], []) :=
  ⟨modality_precedence_and_caption.1 w6Oracle w6Update 42
     ⟨"f1", some "What is this?"⟩ "What is this?" "http://files.example/img.jpg"
     rfl rfl (by decide) rfl,
   modality_precedence_and_caption.2.2.2 w6Oracle 0 [] w6NoopUpdate 42
     rfl (by decide) rfl rfl rfl⟩

/-- C8 counterexample. The callback flow's failure message is not a fixed
non-technical apology: it embeds str(e) verbatim, so two engine failures
with different internal exception texts produce different user-visible
chat messages, each exposing the raw exception string. -/
theorem callback_error_message_embeds_exception :
    process_callback_query_task ⟨.error (.otherError "Connection refused")⟩
        10 w1Store w1Update =
      .ok ([.applyApprove ⟨some "fetch_weather", some "city=Pune"⟩,
            .answerCallbackQuery "cb1" (some "✅ Approved"),
            .engineRun (.runState w1State)] ++
           cbGenericHandlerEffects "cb1" 42 (.otherError "Connection refused"),
           w1Store) ∧
    process_callback_query_task ⟨.error (.otherError "division by zero")⟩
        10 w1Store w1Update =
      .ok ([.applyApprove ⟨some "fetch_weather", some "city=Pune"⟩,
            .answerCallbackQuery "cb1" (some "✅ Approved"),
            .engineRun (.runState w1State)] ++
           cbGenericHandlerEffects "cb1" 42 (.otherError "division by zero"),
           w1Store) ∧
    cbGenericHandlerEffects "cb1" 42 (.otherError "Connection refused") ≠
      cbGenericHandlerEffects "cb1" 42 (.otherError "division by zero") ∧
    (PyErr.otherError "Connection refused").str = "Connection refused" :=
  ⟨rfl, rfl, by decide, rfl⟩

/-- C8 as amended. On a guardrail trip or any other engine failure, no
exception escapes the task boundary and history is rolled back — one entry
in message flows, two in callback flows; the message flows send a fixed
short apology, while the callback flow's chat message is the string
"❌ Error processing approval: " followed by the exception's own text. -/
theorem failure_containment_amended :
    (∀ (oracle : MsgOracle) (now : Nat) (store : Store) (update : Update)
       (chat : Int) (input : AgentInput),
       extract_chat_id_from_update update = some chat → chat ≠ 0 →
       resolve_agent_input oracle update chat = .run input →
       oracle.run = .error .guardrailTriggered →
       process_message_task oracle now store update =
         .ok ([.engineRun input,
               .sendMessage chat (guardrailApology (first_name_of_update update)),
               .popItem], store)) ∧
    (∀ (oracle : MsgOracle) (now : Nat) (store : Store) (update : Update)
       (chat : Int) (input : AgentInput) (e : PyErr),
       extract_chat_id_from_update update = some chat → chat ≠ 0 →
       resolve_agent_input oracle update chat = .run input →
       oracle.run = .error e → e ≠ .guardrailTriggered →
       process_message_task oracle now store update =
         .ok ([.engineRun input, .sendMessage chat genericErrorText,
               .popItem], store)) ∧
    (∀ (oracle : CbOracle) (now : Nat) (store : Store) (update : Update)
       (cq : TCallbackQuery) (state : RunState) (action approval_id : String)
       (i : Interruption) (rest : List Interruption) (e : PyErr),
       update.callback_query = some cq →
       splitFirstColon cq.data = some (action, approval_id) →
       get_pending_approval approval_id now store = .ok state →
       state.interruptions = i :: rest →
       oracle.run = .error e → e.isValueError = false →
       process_callback_query_task oracle now store update =
         .ok (cbDecisionEffects action cq.id i ++
              [.engineRun (.runState state)] ++
              cbGenericHandlerEffects cq.id cq.message_chat_id e, store) ∧
       countPops (cbDecisionEffects action cq.id i ++
              [.engineRun (.runState state)] ++
              cbGenericHandlerEffects cq.id cq.message_chat_id e) = 2) := by
  refine ⟨?_, ?_, ?_⟩
  · intro oracle now store update chat input hchat hch0 hres hrun
    simp [process_message_task, hchat, hch0, hres, hrun]
  · intro oracle now store update chat input e hchat hch0 hres hrun he
    simp only [process_message_task, hchat, if_neg hch0, hres]
    cases e
    case guardrailTriggered => exact absurd rfl he
    all_goals simp [hrun]
  · intro oracle now store update cq state action approval_id i rest e
      h1 h2 h3 h4 hrun hv
    constructor
    · simp only [process_callback_query_task, h1, cbTryBody, h2, h3,
        RunState.get_interruptions, h4, hrun, hv, Bool.false_eq_true,
        if_false, reduceIte]
    · by_cases ha : action = "approve"
      · simp only [cbDecisionEffects, if_pos ha]; rfl
      · simp only [cbDecisionEffects, if_neg ha]; rfl

/-- Plain text message used by the C8 witness. -/
def w8Update : Update :=
  ⟨some ⟨42, some "hello", none, none, none, none⟩, none, none⟩

/-- Oracle whose engine call fails with a generic exception. -/
def w8Oracle : MsgOracle := ⟨.error "unused", .error (.otherError "boom")⟩

/-- Oracle whose engine call trips the input guardrail. -/
def w8GuardrailOracle : MsgOracle := ⟨.error "unused", .error .guardrailTriggered⟩

/-- Witness for the amended C8: concrete guardrail, generic-failure and
callback-failure runs. -/
theorem failure_containment_amended_witness :
    process_message_task w8GuardrailOracle 0 [] w8Update =
      .ok ([.engineRun (.text "hello"),
            .sendMessage 42 (guardrailApology (first_name_of_update w8Update)),
            .popItem], []) ∧
    process_message_task w8Oracle 0 [] w8Update =
      .ok ([.engineRun (.text "hello"), .sendMessage 42 genericErrorText,
            .popItem], []) ∧
    process_callback_query_task ⟨.error (.otherError "boom")⟩ 10 w1Store w1Update =
      .ok (cbDecisionEffects "approve" "cb1"
             ⟨some "fetch_weather", some "city=Pune"⟩ ++
           [.engineRun (.runState w1State)] ++
           cbGenericHandlerEffects "cb1" 42 (.otherError "boom"), w1Store) ∧
    countPops (cbDecisionEffects "approve" "cb1"
             ⟨some "fetch_weather", some "city=Pune"⟩ ++
           [.engineRun (.runState w1State)] ++
           cbGenericHandlerEffects "cb1" 42 (.otherError "boom")) = 2 :=
  ⟨failure_containment_amended.1 w8GuardrailOracle 0 [] w8Update 42 (.text "hello")
     rfl (by decide) rfl rfl,
   failure_containment_amended.2.1 w8Oracle 0 [] w8Update 42 (.text "hello")
     (.otherError "boom") rfl (by decide) rfl rfl (by decide),
   (failure_containment_amended.2.2 ⟨.error (.otherError "boom")⟩ 10 w1Store
     w1Update ⟨"cb1", "approve:hitl:42:1", 42, none⟩ w1State "approve"
     "hitl:42:1" ⟨some "fetch_weather", some "city=Pune"⟩ [] (.otherError "boom")
     rfl rfl rfl rfl rfl rfl).1,
   (failure_containment_amended.2.2 ⟨.error (.otherError "boom")⟩ 10 w1Store
     w1Update ⟨"cb1", "approve:hitl:42:1", 42, none⟩ w1State "approve"
     "hitl:42:1" ⟨some "fetch_weather", some "city=Pune"⟩ [] (.otherError "boom")
     rfl rfl rfl rfl rfl rfl).2⟩

/-- A sender flagged as a bot. -/
def botUser : TUser := ⟨99, some "SpamBot", none, none, some true, none⟩

/-- Callback decision sent by the bot sender, referencing a live approval. -/
def c5Update : Update :=
  ⟨none, none, some ⟨"cb9", "approve:hitl:42:1", 42, some botUser⟩⟩

/-- Callback oracle completing normally. -/
def c5CbOracle : CbOracle := ⟨.ok ⟨[], "Sunny", ⟨[]⟩⟩⟩

/-- C5 counterexample. The webhook dispatches callback queries to
handle_callback_query before any bot check, so a callback decision whose
sender is flagged as a bot produces zero bot-suppression notices and one
engine invocation — against the claim of exactly one notice and zero
invocations for every bot-flagged inbound event. -/
theorem bot_callback_bypasses_suppression :
    (extract_user_info_from_update c5Update).map (fun ui => ui.is_bot) =
      some true ∧
    countEngineRuns
      (receive_webhook "s" (some "s") w6Oracle c5CbOracle 10 w1Store
        c5Update).effects = 1 ∧
    countBotNotices
      (receive_webhook "s" (some "s") w6Oracle c5CbOracle 10 w1Store
        c5Update).effects = 0 :=
  ⟨rfl, rfl, rfl⟩

/-- C5 as amended. Bot suppression holds for message and edited-message
events — exactly one bot notice, zero engine invocations, store
untouched — but callback decisions never reach the bot check. -/
theorem bot_suppression_for_messages (secret : String) (msgO : MsgOracle)
    (cbO : CbOracle) (now : Nat) (store : Store) (update : Update)
    (ui : UserInfo) (chat : Int)
    (h0 : update.callback_query = none)
    (h1 : extract_user_info_from_update update = some ui)
    (h2 : ui.is_bot = true)
    (h3 : extract_chat_id_from_update update = some chat)
    (h4 : chat ≠ 0) :
    receive_webhook secret (some secret) msgO cbO now store update =
      ⟨[.sendMessage chat botNoticeText], store,
       .ok ⟨"ok", "Message from bot, responded accordingly"⟩⟩ ∧
    countEngineRuns [.sendMessage chat botNoticeText] = 0 ∧
    countBotNotices [.sendMessage chat botNoticeText] = 1 := by
  refine ⟨?_, rfl, by simp [countBotNotices]⟩
  simp [receive_webhook, h0, h1, h2, h3, h4]

/-- Plain message from the bot sender, for the amended-C5 witness. -/
def c5MsgUpdate : Update :=
  ⟨some ⟨42, some "hi", none, some botUser, none, none⟩, none, none⟩

/-- Witness for the amended C5 at a concrete bot-authored plain message. -/
theorem bot_suppression_for_messages_witness :
    receive_webhook "s" (some "s") w6Oracle c5CbOracle 0 [] c5MsgUpdate =
      ⟨[.sendMessage 42 botNoticeText], [],
       .ok ⟨"ok", "Message from bot, responded accordingly"⟩⟩ ∧
    countEngineRuns [.sendMessage 42 botNoticeText] = 0 ∧
    countBotNotices [.sendMessage 42 botNoticeText] = 1 :=
  bot_suppression_for_messages "s" w6Oracle c5CbOracle 0 [] c5MsgUpdate
    ⟨99, "SpamBot", none, none, true, none⟩ 42 rfl rfl rfl rfl (by decide)

/-- Human sender of the C2 failing input. -/
def anaUser : TUser := ⟨7, some "Ana", none, none, some false, none⟩

/-- The C2 failing input: a plain text message update. -/
def anaUpdate : Update :=
  ⟨some ⟨42, some "get weather", none, some anaUser, none, none⟩, none, none⟩

/-- Message oracle completing normally for the C2 run. -/
def anaOracle : MsgOracle := ⟨.error "unused", .ok ⟨[], "Sunny in Pune", ⟨[]⟩⟩⟩

/-- C2. Contrary to the background-dispatch contract, the webhook endpoint
never enqueues a task: on a plain message it invokes the engine inline in
the request handler and acknowledges only after the full run; on a
callback decision it likewise executes the whole state machine inline via
handle_callback_query. The worker registering process_message_task and
process_callback_query_task exists but is unreachable from the webhook. -/
theorem webhook_runs_engine_inline_without_dispatch :
    (receive_webhook "s" (some "s") anaOracle c5CbOracle 100 [] anaUpdate).effects =
      [.engineRun (.text "get weather"), .sendMessage 42 "Sunny in Pune"] ∧
    countEnqueues
      (receive_webhook "s" (some "s") anaOracle c5CbOracle 100 [] anaUpdate).effects = 0 ∧
    countEngineRuns
      (receive_webhook "s" (some "s") anaOracle c5CbOracle 100 [] anaUpdate).effects = 1 ∧
    (receive_webhook "s" (some "s") anaOracle c5CbOracle 100 [] anaUpdate).response =
      .ok ⟨"ok", "Sent final response to user"⟩ ∧
    countEnqueues
      (receive_webhook "s" (some "s") anaOracle c5CbOracle 10 w1Store w1Update).effects = 0 ∧
    countEngineRuns
      (receive_webhook "s" (some "s") anaOracle c5CbOracle 10 w1Store w1Update).effects = 1 :=
  ⟨rfl, rfl, rfl, rfl, rfl, rfl⟩

end TgBot
